import Mathlib

/-!
Verification development for the schema-driven API generation core of the
mcp-gateway repository: the query builder / API generator, the Snowflake
connector, the dynamic endpoint registry's parameter extraction, and the
server lifecycle controller.  Definitions are shallow embeddings of the Go
source; external collaborators (the SQL backend, the gosnowflake library,
the filesystem) are passed in as explicit function parameters.
-/

namespace MCPGateway

/-- ASCII lowercasing of one character: the effect of Go `strings.ToLower`
on the ASCII data that flows through this code (type names, auth types). -/
def asciiToLower (c : Char) : Char :=
  if 65 ≤ c.toNat ∧ c.toNat ≤ 90 then Char.ofNat (c.toNat + 32) else c

/-- Lowercase a string character-wise (Go `strings.ToLower`, ASCII fragment). -/
def strToLower (s : String) : String :=
  String.mk (s.data.map asciiToLower)

/-- Does `needle` occur as a contiguous run inside `hay`?  Character-list
embedding of Go `strings.Contains`. -/
def listHasInfix (needle : List Char) : List Char → Bool
  | [] => needle.isEmpty
  | c :: rest => List.isPrefixOf needle (c :: rest) || listHasInfix needle rest

/-- Go `strings.Contains s sub`. -/
def strContains (s sub : String) : Bool :=
  listHasInfix sub.data s.data

/-- Column of the connector data model (`Column` in the Go source).  The
`interface{}`-typed sample value is modelled as an optional string. -/
structure Column where
  name : String
  type : String
  description : String := ""
  primaryKey : Bool := false
  foreignKey : Bool := false
  references : String := ""
  sample : Option String := none
  deriving Repr, DecidableEq

/-- Table of the connector data model. -/
structure Table where
  name : String
  rowCount : Int := 0
  deriving Repr, DecidableEq

/-- TableMetadata of the connector data model.  Sample rows (Go
`[]map[string]interface{}`) are modelled as association lists of strings. -/
structure TableMetadata where
  name : String
  description : String := ""
  columns : List Column := []
  sampleData : List (List (String × String)) := []
  rowCount : Int := 0
  verboseDescription : String := ""
  deriving Repr, DecidableEq

/-- APIEndpoint of the connector data model.  The Go `Parameters` field is a
`map[string]interface{}` whose values are description strings; it is modelled
as an association list with at most one binding per key. -/
structure APIEndpoint where
  method : String
  path : String
  description : String
  query : String
  parameters : List (String × String) := []
  deriving Repr, DecidableEq

/-- APIGeneratorConfig of the generator. -/
structure APIGeneratorConfig where
  enableLLM : Bool := false
  apiPrefixPath : String := "/api/db"
  includeMetadata : Bool := true
  deriving Repr, DecidableEq

/-- Go map read `m[k]`: the value of the first (hence only) binding of `k`. -/
def mapGet : List (String × String) → String → Option String
  | [], _ => none
  | p :: rest, k => if p.1 = k then some p.2 else mapGet rest k

/-- Go map write `m[k] = v` on the association-list model: replace the
binding of `k` when present, otherwise append one. -/
def mapSet : List (String × String) → String → String → List (String × String)
  | [], k, v => [(k, v)]
  | p :: rest, k, v => if p.1 = k then (k, v) :: rest else p :: mapSet rest k v

/-- quoteTableName from the generator: wrap in double quotes. -/
def quoteTableName (tableName : String) : String :=
  "\"" ++ tableName ++ "\""

/-- quoteColumnName from the generator: wrap in double quotes. -/
def quoteColumnName (columnName : String) : String :=
  "\"" ++ columnName ++ "\""

/-- isAutoIncrementType: case-insensitive substring heuristic on the declared
column type. -/
def isAutoIncrementType (columnType : String) : Bool :=
  let lowerType := strToLower columnType
  strContains lowerType "identity" ||
    strContains lowerType "autoincrement" ||
    strContains lowerType "serial"

/-- Columns kept by generateInsertQuery: the loop skips a column exactly when
it is primary-key and of auto-increment type. -/
def insertColumns (columns : List Column) : List Column :=
  columns.filter (fun col => !(col.primaryKey && isAutoIncrementType col.type))

/-- generateInsertQuery from the generator. -/
def generateInsertQuery (tableName : String) (columns : List Column) : String :=
  let cols := insertColumns columns
  let columnNames := cols.map (fun col => quoteColumnName col.name)
  let paramNames := cols.map (fun col => ":" ++ col.name)
  "INSERT INTO " ++ quoteTableName tableName ++ " (" ++
    String.intercalate ", " columnNames ++ ") VALUES (" ++
    String.intercalate ", " paramNames ++ ")"

/-- Columns appearing in the UPDATE SET clause: the loop skips exactly the
columns whose name equals the primary-key column name. -/
def updateSetColumns (columns : List Column) (primaryKeyColumn : String) : List Column :=
  columns.filter (fun col => col.name != primaryKeyColumn)

/-- The SET-clause fragments built by generateUpdateQuery. -/
def updateSetParts (columns : List Column) (primaryKeyColumn : String) : List String :=
  (updateSetColumns columns primaryKeyColumn).map
    (fun col => quoteColumnName col.name ++ " = :" ++ col.name)

/-- generateUpdateQuery from the generator. -/
def generateUpdateQuery (tableName : String) (columns : List Column)
    (primaryKeyColumn : String) : String :=
  "UPDATE " ++ quoteTableName tableName ++ " SET " ++
    String.intercalate ", " (updateSetParts columns primaryKeyColumn) ++
    " WHERE " ++ quoteColumnName primaryKeyColumn ++ " = :" ++ primaryKeyColumn

/-- generateColumnParameters: parameter descriptions per column (map content;
the Go map has no order, the association list is a canonical representation). -/
def generateColumnParameters (columns : List Column) : List (String × String) :=
  columns.foldl
    (fun params col =>
      mapSet params col.name
        (if col.description != "" then col.description else col.name)) []

/-- Primary-key inference of both generators: the name of the first column
flagged primary-key, or the empty string when none is flagged. -/
def findPrimaryKeyColumn (columns : List Column) : String :=
  match columns.find? (fun col => col.primaryKey) with
  | some col => col.name
  | none => ""

/-- generateEndpointsForTable of the API generator, after the metadata has
been fetched: the endpoint descriptors produced for one table. -/
def generateEndpointsForTable (tableName : String) (metadata : TableMetadata) :
    List APIEndpoint :=
  let primaryKeyColumn := findPrimaryKeyColumn metadata.columns
  let basePath := "/" ++ tableName
  let listEndpoint : APIEndpoint :=
    { method := "GET"
      path := basePath
      description := "List records from " ++ tableName ++ " table"
      query := "SELECT * FROM " ++ quoteTableName tableName ++
        " LIMIT :limit OFFSET :offset"
      parameters := [("limit", "Number of records to return (default: 100)"),
                     ("offset", "Number of records to skip (default: 0)")] }
  let getByIdEndpoint : APIEndpoint :=
    { method := "GET"
      path := basePath ++ "/:" ++ primaryKeyColumn
      description := "Get a record from " ++ tableName ++ " by ID"
      query := "SELECT * FROM " ++ quoteTableName tableName ++ " WHERE " ++
        quoteColumnName primaryKeyColumn ++ " = :" ++ primaryKeyColumn
      parameters := [(primaryKeyColumn, "ID of the " ++ tableName ++ " record")] }
  let deleteEndpoint : APIEndpoint :=
    { method := "DELETE"
      path := basePath ++ "/:" ++ primaryKeyColumn
      description := "Delete a record from " ++ tableName ++ " by ID"
      query := "DELETE FROM " ++ quoteTableName tableName ++ " WHERE " ++
        quoteColumnName primaryKeyColumn ++ " = :" ++ primaryKeyColumn
      parameters := [(primaryKeyColumn, "ID of the " ++ tableName ++ " record to delete")] }
  let createEndpoint : APIEndpoint :=
    { method := "POST"
      path := basePath
      description := "Create a new record in " ++ tableName ++ " table"
      query := generateInsertQuery tableName metadata.columns
      parameters := generateColumnParameters metadata.columns }
  let updateEndpoint : APIEndpoint :=
    { method := "PUT"
      path := basePath ++ "/:" ++ primaryKeyColumn
      description := "Update a record in " ++ tableName ++ " table"
      query := generateUpdateQuery tableName metadata.columns primaryKeyColumn
      parameters := generateColumnParameters metadata.columns }
  let endpoints := [listEndpoint]
  let endpoints :=
    if primaryKeyColumn != "" then endpoints ++ [getByIdEndpoint, deleteEndpoint]
    else endpoints
  let endpoints := endpoints ++ [createEndpoint]
  if primaryKeyColumn != "" then endpoints ++ [updateEndpoint] else endpoints

/-- generateMetadataEndpoints: the three fixed sentinel descriptors. -/
def generateMetadataEndpoints : List APIEndpoint :=
  [{ method := "GET"
     path := "/tables"
     description := "List all available tables"
     query := ""
     parameters := [] },
   { method := "GET"
     path := "/tables/:tableName"
     description := "Get metadata for a specific table"
     query := ""
     parameters := [("tableName", "Name of the table")] },
   { method := "POST"
     path := "/query"
     description := "Execute a custom SQL query"
     query := ""
     parameters := [("query", "SQL query to execute"),
                    ("params", "Parameters for the query")] }]

/-- Per-table generation including the optional LLM-enhancement step.  The
enhancement is passed as the in-place metadata transformation it performs;
the generator ignores its error and continues with the mutated metadata. -/
def generateEndpointsForTableCfg (config : APIGeneratorConfig)
    (enhance : TableMetadata → TableMetadata) (tableName : String)
    (metadata : TableMetadata) : List APIEndpoint :=
  let md := if config.enableLLM then enhance metadata else metadata
  generateEndpointsForTable tableName md

/-- The per-table loop of GenerateAPIFromTables: a table whose metadata fetch
fails is skipped (contributes nothing), the loop continues. -/
def generateTablesLoop (config : APIGeneratorConfig)
    (enhance : TableMetadata → TableMetadata)
    (getMetadata : String → Except String TableMetadata) :
    List String → List APIEndpoint
  | [] => []
  | t :: rest =>
    (match getMetadata t with
     | .error _ => []
     | .ok md => generateEndpointsForTableCfg config enhance t md) ++
      generateTablesLoop config enhance getMetadata rest

/-- GenerateAPIFromTables of the API generator.  The connector's ListTables
and GetTableMetadata operations are passed in as explicit parameters. -/
def generateAPIFromTables (connectorPresent : Bool) (config : APIGeneratorConfig)
    (enhance : TableMetadata → TableMetadata)
    (listTablesResult : Except String (List Table))
    (getMetadata : String → Except String TableMetadata)
    (tables : List String) : Except String (List APIEndpoint) :=
  if !connectorPresent then .error "database connector is not initialized"
  else
    match
      (if tables.isEmpty then
        match listTablesResult with
        | .error e => Except.error ("failed to list tables: " ++ e)
        | .ok ts => Except.ok (ts.map Table.name)
      else .ok tables) with
    | .error e => .error e
    | .ok ts =>
      let allEndpoints := generateTablesLoop config enhance getMetadata ts
      .ok (if config.includeMetadata then
             allEndpoints ++ generateMetadataEndpoints
           else allEndpoints)

/-- SnowflakeConfig of the connector. -/
structure SnowflakeConfig where
  account : String := ""
  username : String := ""
  password : String := ""
  database : String := ""
  schema : String := ""
  warehouse : String := ""
  role : String := ""
  privateKey : String := ""
  privateKeyPath : String := ""
  authType : String := ""
  deriving Repr, DecidableEq

/-- Authentication payload handed to the gosnowflake configuration. -/
inductive SfAuth
  | password (pw : String)
  | keyPair
  deriving Repr, DecidableEq

/-- The gosnowflake configuration assembled by createSnowflakeDSN. -/
structure SfLibConfig where
  account : String
  user : String
  database : String
  schema : String
  warehouse : String
  role : String
  auth : SfAuth
  deriving Repr, DecidableEq

/-- External collaborators of createSnowflakeDSN: PEM private-key parsing,
file reading, and the gosnowflake DSN builder. -/
structure DSNExternals where
  parseKey : String → Except String Unit
  readFile : String → Except String String
  sfDSN : SfLibConfig → Except String String

/-- External collaborators of Connect: DSN construction plus the database
connection attempt. -/
structure ConnectExternals extends DSNExternals where
  sqlxConnect : String → Except String Unit

/-- createSnowflakeDSN: the authentication switch on the lowercased AuthType,
then the gosnowflake DSN builder. -/
def createSnowflakeDSN (ext : DSNExternals) (cfg : SnowflakeConfig) :
    Except String String :=
  let finish := fun (auth : SfAuth) =>
    match ext.sfDSN { account := cfg.account, user := cfg.username,
                      database := cfg.database, schema := cfg.schema,
                      warehouse := cfg.warehouse, role := cfg.role,
                      auth := auth } with
    | .error e => Except.error ("failed to create Snowflake DSN: " ++ e)
    | .ok dsn => Except.ok dsn
  let authLower := strToLower cfg.authType
  if authLower = "password" then finish (SfAuth.password cfg.password)
  else if authLower = "key_pair" then
    if cfg.privateKey != "" then
      match ext.parseKey cfg.privateKey with
      | .error e => .error ("failed to parse private key: " ++ e)
      | .ok _ => finish SfAuth.keyPair
    else if cfg.privateKeyPath != "" then
      match ext.readFile cfg.privateKeyPath with
      | .error e => .error ("failed to read private key file: " ++ e)
      | .ok keyBytes =>
        match ext.parseKey keyBytes with
        | .error e => .error ("failed to parse private key from file: " ++ e)
        | .ok _ => finish SfAuth.keyPair
    else
      .error "either private_key or private_key_path must be provided for key_pair authentication"
  else .error ("unsupported authentication type: " ++ cfg.authType)

/-- Connect of the Snowflake connector: DSN construction first; the second
component records whether a backend connection attempt was made. -/
def snowflakeConnect (ext : ConnectExternals) (cfg : SnowflakeConfig) :
    Except String Unit × Bool :=
  match createSnowflakeDSN ext.toDSNExternals cfg with
  | .error e => (.error ("failed to create Snowflake DSN: " ++ e), false)
  | .ok dsn =>
    match ext.sqlxConnect dsn with
    | .error e => (.error ("failed to connect to Snowflake: " ++ e), true)
    | .ok _ => (.ok (), true)

/-- The per-column phrase of the placeholder LLM enhancement. -/
def columnPhrase (col : Column) : String :=
  col.name ++ " (" ++ col.type ++ ")" ++
    (if col.primaryKey then " [Primary Key]" else "")

/-- The deterministic verbose-description template of the placeholder LLM
enhancement: table name, column count, row count, then each column's name,
type and primary-key annotation, comma-separated. -/
def enhanceDescriptionText (metadata : TableMetadata) : String :=
  "Table " ++ metadata.name ++ " contains " ++
    toString metadata.columns.length ++ " columns and " ++
    toString metadata.rowCount ++ " rows. " ++ "Columns include: " ++
    String.intercalate ", " (metadata.columns.map columnPhrase)

/-- EnhanceMetadataWithLLM of the Snowflake connector (the default,
placeholder implementation): sets the verbose description and returns nil. -/
def enhanceMetadataWithLLM (metadata : TableMetadata) :
    Except String TableMetadata :=
  .ok { metadata with verboseDescription := enhanceDescriptionText metadata }

/-- The endpoint descriptors GenerateAPIEndpoints of the Snowflake connector
produces for one table, given its metadata: a list endpoint always, plus a
get-by-id endpoint when a primary key is inferred. -/
def snowflakeEndpointsForTable (database schema tableName : String)
    (metadata : TableMetadata) : List APIEndpoint :=
  let primaryKeyColumn := findPrimaryKeyColumn metadata.columns
  let listEndpoint : APIEndpoint :=
    { method := "GET"
      path := "/" ++ tableName
      description := "List all records from " ++ tableName ++ " table"
      query := "SELECT * FROM \"" ++ database ++ "\".\"" ++ schema ++
        "\".\"" ++ tableName ++ "\" LIMIT :limit OFFSET :offset"
      parameters := [("limit", "Number of records to return"),
                     ("offset", "Number of records to skip")] }
  if primaryKeyColumn != "" then
    [listEndpoint,
     { method := "GET"
       path := "/" ++ tableName ++ "/\x7b" ++ primaryKeyColumn ++ "\x7d"
       description := "Get a single record from " ++ tableName ++ " by ID"
       query := "SELECT * FROM \"" ++ database ++ "\".\"" ++ schema ++
         "\".\"" ++ tableName ++ "\" WHERE \"" ++ primaryKeyColumn ++
         "\" = :" ++ primaryKeyColumn
       parameters := [(primaryKeyColumn, "ID of the " ++ tableName ++ " record")] }]
  else [listEndpoint]

/-- The table loop of the Snowflake GenerateAPIEndpoints: the first table
whose metadata fetch fails aborts the whole call with an error. -/
def snowflakeGenLoop (database schema : String)
    (getMetadata : String → Except String TableMetadata) :
    List String → Except String (List APIEndpoint)
  | [] => .ok []
  | t :: rest =>
    match getMetadata t with
    | .error e => .error ("failed to get metadata for table " ++ t ++ ": " ++ e)
    | .ok md =>
      match snowflakeGenLoop database schema getMetadata rest with
      | .error e => .error e
      | .ok eps => .ok (snowflakeEndpointsForTable database schema t md ++ eps)

/-- GenerateAPIEndpoints of the Snowflake connector: not-connected guard,
then the all-or-nothing table loop. -/
def snowflakeGenerateAPIEndpoints (db : Option Unit) (database schema : String)
    (getMetadata : String → Except String TableMetadata)
    (tables : List String) : Except String (List APIEndpoint) :=
  match db with
  | none => .error "not connected to database"
  | some _ => snowflakeGenLoop database schema getMetadata tables

/-- ListTables of the Snowflake connector: not-connected guard, then the
backend introspection (passed in as a parameter). -/
def snowflakeListTables (db : Option Unit)
    (backend : Except String (List Table)) : Except String (List Table) :=
  match db with
  | none => .error "not connected to database"
  | some _ => backend

/-- GetTableMetadata of the Snowflake connector: not-connected guard, then
the backend introspection. -/
def snowflakeGetTableMetadata (db : Option Unit)
    (backend : String → Except String TableMetadata) (tableName : String) :
    Except String TableMetadata :=
  match db with
  | none => .error "not connected to database"
  | some _ => backend tableName

/-- ExecuteQuery of the Snowflake connector: not-connected guard, then the
backend execution. -/
def snowflakeExecuteQuery (db : Option Unit)
    (backend : String → List (String × String) →
      Except String (List (List (String × String))))
    (query : String) (params : List (String × String)) :
    Except String (List (List (String × String))) :=
  match db with
  | none => .error "not connected to database"
  | some _ => backend query params

/-- The path-parameter pass of the dynamic endpoint handler: every name
declared in the descriptor's parameter map that the router bound as a path
parameter is written into the map. -/
def bindPathParams (pathParams : List (String × String)) :
    List String → List (String × String) → List (String × String)
  | [], m => m
  | name :: rest, m =>
    bindPathParams pathParams rest
      (match mapGet pathParams name with
       | some v => mapSet m name v
       | none => m)

/-- The query-string pass of the dynamic endpoint handler: every query key
with a non-empty value list is written over the map with its first value. -/
def mergeQueryParams :
    List (String × List String) → List (String × String) → List (String × String)
  | [], m => m
  | kv :: rest, m =>
    mergeQueryParams rest
      (match kv.2 with
       | [] => m
       | v :: _ => mapSet m kv.1 v)

/-- Parameter extraction of the dynamically registered endpoint handlers:
the path-parameter pass runs first, then the query-string pass writes over
its result. -/
def extractParams (descParamNames : List String)
    (pathParams : List (String × String))
    (queryParams : List (String × List String)) : List (String × String) :=
  mergeQueryParams queryParams (bindPathParams pathParams descParamNames [])

/-- Lifecycle state of MCPServerWithDB, instrumented with counters of
Connect and Disconnect invocations. -/
structure MCPServer where
  hasDB : Bool
  isRunning : Bool := false
  connectCalls : Nat := 0
  disconnectCalls : Nat := 0
  deriving Repr, DecidableEq

/-- Start of MCPServerWithDB: no-op while running; otherwise Connect when a
connector is configured (the k-th invocation succeeding iff `connectOk k`),
entering Running only on success. -/
def serverStart (connectOk : Nat → Bool) (s : MCPServer) :
    MCPServer × Option String :=
  if s.isRunning then (s, none)
  else if s.hasDB then
    if connectOk s.connectCalls then
      ({ s with isRunning := true, connectCalls := s.connectCalls + 1 }, none)
    else
      ({ s with connectCalls := s.connectCalls + 1 },
       some "failed to connect to database")
  else ({ s with isRunning := true }, none)

/-- Stop of MCPServerWithDB: no-op while stopped; otherwise Disconnect when a
connector is configured (its error only logged) and leave Running. -/
def serverStop (s : MCPServer) : MCPServer × Option String :=
  if !s.isRunning then (s, none)
  else if s.hasDB then
    ({ s with isRunning := false, disconnectCalls := s.disconnectCalls + 1 },
     none)
  else ({ s with isRunning := false }, none)

/-- Concrete users-table metadata whose first column is flagged primary-key. -/
def mdUsers : TableMetadata :=
  { name := "users"
    columns := [{ name := "id", type := "NUMBER", primaryKey := true },
                { name := "email", type := "TEXT" }] }

/-- Concrete users-table metadata whose primary-key column has a serial
(auto-increment) declared type. -/
def mdSerialUsers : TableMetadata :=
  { name := "users"
    columns := [{ name := "id", type := "SERIAL", primaryKey := true },
                { name := "email", type := "TEXT" }] }

/-- Concrete logs-table metadata with no primary-key column. -/
def mdLogs : TableMetadata :=
  { name := "logs"
    columns := [{ name := "message", type := "TEXT" }] }

/-- Concrete metadata oracle failing for table bad and succeeding for every
other table name. -/
def gmBad : String → Except String TableMetadata :=
  fun t => if t = "bad" then .error "boom" else .ok { name := t }

/-- Concrete externals in which every external collaborator succeeds. -/
def extOk : ConnectExternals :=
  { parseKey := fun _ => .ok ()
    readFile := fun _ => .ok ""
    sfDSN := fun _ => .ok "dsn"
    sqlxConnect := fun _ => .ok () }

/-- Concrete password-type auth configuration spelled in upper case. -/
def cfgUpper : SnowflakeConfig := { authType := "PASSWORD" }

/-- Concrete key_pair auth configuration with neither inline key nor path. -/
def cfgKeyPairEmpty : SnowflakeConfig := { authType := "key_pair" }

/-! Helper lemmas about the association-list map model. -/

theorem mapGet_mapSet_self (m : List (String × String)) (k v : String) :
    mapGet (mapSet m k v) k = some v := by
  induction m with
  | nil => simp [mapSet, mapGet]
  | cons p rest ih =>
    by_cases h : p.1 = k
    · simp [mapSet, mapGet, h]
    · simp [mapSet, mapGet, h, ih]

theorem mapGet_mapSet_other (m : List (String × String)) (k k' v : String)
    (h : k ≠ k') : mapGet (mapSet m k' v) k = mapGet m k := by
  induction m with
  | nil => simp [mapSet, mapGet, Ne.symm h]
  | cons p rest ih =>
    by_cases hp : p.1 = k'
    · have hpk : ¬(p.1 = k) := by simp [hp, Ne.symm h]
      simp [mapSet, mapGet, hp, hpk, Ne.symm h]
    · by_cases hk : p.1 = k
      · simp [mapSet, mapGet, hp, hk, h]
      · simp [mapSet, mapGet, hp, hk, ih]

theorem mergeQueryParams_not_mem (qps : List (String × List String))
    (m : List (String × String)) (k : String)
    (h : k ∉ qps.map Prod.fst) :
    mapGet (mergeQueryParams qps m) k = mapGet m k := by
  induction qps generalizing m with
  | nil => simp [mergeQueryParams]
  | cons kv rest ih =>
    have hk : k ≠ kv.1 := by
      intro he; exact h (by simp [he])
    have hrest : k ∉ rest.map Prod.fst := by
      intro he; exact h (by simp [he])
    cases hl : kv.2 with
    | nil => simp [mergeQueryParams, hl, ih _ hrest]
    | cons v vs =>
      simp [mergeQueryParams, hl, ih _ hrest, mapGet_mapSet_other _ _ _ _ hk]

theorem mergeQueryParams_mem (qps : List (String × List String))
    (m : List (String × String)) (k v : String) (vs : List String)
    (hmem : (k, v :: vs) ∈ qps) (hnd : (qps.map Prod.fst).Nodup) :
    mapGet (mergeQueryParams qps m) k = some v := by
  induction qps generalizing m with
  | nil => cases hmem
  | cons kv rest ih =>
    rw [List.map_cons, List.nodup_cons] at hnd
    rcases List.mem_cons.mp hmem with hhead | htail
    · have hk1 : kv.1 = k := by rw [← hhead]
      have hl : kv.2 = v :: vs := by rw [← hhead]
      have hrest : k ∉ rest.map Prod.fst := hk1 ▸ hnd.1
      simp [mergeQueryParams, hl, hk1,
        mergeQueryParams_not_mem rest _ k hrest, mapGet_mapSet_self]
    · cases hl : kv.2 with
      | nil => simp [mergeQueryParams, hl, ih _ htail hnd.2]
      | cons w ws => simp [mergeQueryParams, hl, ih _ htail hnd.2]

theorem bindPathParams_not_mem (pathParams : List (String × String))
    (names : List String) (m : List (String × String)) (k : String)
    (h : k ∉ names) :
    mapGet (bindPathParams pathParams names m) k = mapGet m k := by
  induction names generalizing m with
  | nil => simp [bindPathParams]
  | cons name rest ih =>
    have hk : k ≠ name := by intro he; exact h (by simp [he])
    have hrest : k ∉ rest := by intro he; exact h (by simp [he])
    cases hp : mapGet pathParams name with
    | none => simp [bindPathParams, hp, ih _ hrest]
    | some v =>
      simp [bindPathParams, hp, ih _ hrest, mapGet_mapSet_other _ _ _ _ hk]

theorem bindPathParams_mem (pathParams : List (String × String))
    (names : List String) (m : List (String × String)) (k w : String)
    (hname : k ∈ names) (hpath : mapGet pathParams k = some w) :
    mapGet (bindPathParams pathParams names m) k = some w := by
  induction names generalizing m with
  | nil => cases hname
  | cons name rest ih =>
    by_cases hk : name = k
    · subst hk
      by_cases hr : name ∈ rest
      · cases hp : mapGet pathParams name with
        | none => rw [hpath] at hp; cases hp
        | some v => simp [bindPathParams, hp, ih _ hr]
      · have hv := hpath
        simp [bindPathParams, hv,
          bindPathParams_not_mem pathParams rest _ name hr, mapGet_mapSet_self]
    · have hr : k ∈ rest := by
        rcases List.mem_cons.mp hname with he | ht
        · exact absurd he.symm hk
        · exact ht
      cases hp : mapGet pathParams name with
      | none => simp [bindPathParams, hp, ih _ hr]
      | some v => simp [bindPathParams, hp, ih _ hr]

/-! Helper lemmas about the generation loops. -/

theorem generateTablesLoop_mem (config : APIGeneratorConfig)
    (enhance : TableMetadata → TableMetadata)
    (getMetadata : String → Except String TableMetadata)
    (ts : List String) (t : String) (md : TableMetadata) (e : APIEndpoint)
    (ht : t ∈ ts) (hgm : getMetadata t = .ok md)
    (he : e ∈ generateEndpointsForTableCfg config enhance t md) :
    e ∈ generateTablesLoop config enhance getMetadata ts := by
  induction ts with
  | nil => cases ht
  | cons t₀ rest ih =>
    rcases List.mem_cons.mp ht with hhead | htail
    · subst hhead
      rw [generateTablesLoop, hgm]
      exact List.mem_append_left _ he
    · rw [generateTablesLoop]
      exact List.mem_append_right _ (ih htail)

theorem snowflakeGenLoop_error (database schema : String)
    (getMetadata : String → Except String TableMetadata)
    (ts : List String) (t : String) (msg : String)
    (ht : t ∈ ts) (hgm : getMetadata t = .error msg) :
    ∃ e, snowflakeGenLoop database schema getMetadata ts = .error e := by
  induction ts with
  | nil => cases ht
  | cons t₀ rest ih =>
    cases hg : getMetadata t₀ with
    | error e₀ =>
      exact ⟨_, by rw [snowflakeGenLoop, hg]⟩
    | ok md₀ =>
      have htail : t ∈ rest := by
        rcases List.mem_cons.mp ht with hhead | htail
        · subst hhead; rw [hgm] at hg; cases hg
        · exact htail
      obtain ⟨e, hrec⟩ := ih htail
      exact ⟨e, by rw [snowflakeGenLoop, hg, hrec]⟩

/-- C4: a column of the table metadata appears in the column list of the
generated INSERT (create) template iff it is not both flagged primary-key and
of a declared type matching the case-insensitive auto-increment heuristic
(substrings identity, autoincrement, serial); in particular no column that is
both primary-key and auto-increment-typed appears in the INSERT column list. -/
theorem c4_insert_excludes_autoinc_pk (columns : List Column) (col : Column)
    (hmem : col ∈ columns) :
    (col ∈ insertColumns columns ↔
      ¬(col.primaryKey = true ∧ isAutoIncrementType col.type = true)) ∧
    ∀ c ∈ insertColumns columns,
      ¬(c.primaryKey = true ∧ isAutoIncrementType c.type = true) := by
  constructor
  · rw [insertColumns, List.mem_filter]
    cases hpk : col.primaryKey <;> cases hat : isAutoIncrementType col.type <;>
      simp [hmem, hpk, hat]
  · intro c hc
    have h := (List.mem_filter.mp hc).2
    cases hpk : c.primaryKey <;> cases hat : isAutoIncrementType c.type <;>
      simp [hpk, hat] at h ⊢

/-- Witness for C4 at the serial-primary-key users table. -/
theorem c4_witness :
    ({ name := "id", type := "SERIAL", primaryKey := true } : Column) ∈
      mdSerialUsers.columns ∧
    ((({ name := "id", type := "SERIAL", primaryKey := true } : Column) ∈
        insertColumns mdSerialUsers.columns ↔
      ¬(({ name := "id", type := "SERIAL", primaryKey := true } : Column).primaryKey = true ∧
        isAutoIncrementType ({ name := "id", type := "SERIAL", primaryKey := true } : Column).type = true)) ∧
     ∀ c ∈ insertColumns mdSerialUsers.columns,
       ¬(c.primaryKey = true ∧ isAutoIncrementType c.type = true)) :=
  ⟨by decide,
   c4_insert_excludes_autoinc_pk mdSerialUsers.columns
     { name := "id", type := "SERIAL", primaryKey := true } (by decide)⟩

/-- C5: the SET clause of the generated UPDATE template assigns every column
whose name differs from the primary-key column name, every SET fragment comes
from a column whose name differs from the primary-key column name (so the SET
clause never assigns the primary-key column), and the WHERE clause equates
the quoted primary-key column against its named parameter. -/
theorem c5_update_set_clause (tableName : String) (columns : List Column)
    (primaryKeyColumn : String) :
    (∀ col ∈ columns, col.name ≠ primaryKeyColumn →
       (quoteColumnName col.name ++ " = :" ++ col.name) ∈
         updateSetParts columns primaryKeyColumn) ∧
    (∀ part ∈ updateSetParts columns primaryKeyColumn,
       ∃ col, col ∈ columns ∧ col.name ≠ primaryKeyColumn ∧
         part = quoteColumnName col.name ++ " = :" ++ col.name) ∧
    generateUpdateQuery tableName columns primaryKeyColumn =
      "UPDATE " ++ quoteTableName tableName ++ " SET " ++
        String.intercalate ", " (updateSetParts columns primaryKeyColumn) ++
        " WHERE " ++ quoteColumnName primaryKeyColumn ++ " = :" ++
        primaryKeyColumn := by
  refine ⟨?_, ?_, rfl⟩
  · intro col hcol hne
    exact List.mem_map_of_mem _
      (List.mem_filter.mpr ⟨hcol, by simpa using hne⟩)
  · intro part hpart
    obtain ⟨col, hcf, heq⟩ := List.mem_map.mp hpart
    have h := List.mem_filter.mp hcf
    exact ⟨col, h.1, by simpa using h.2, heq.symm⟩

/-- Witness for C5 at the users table with primary key id. -/
theorem c5_witness :
    (quoteColumnName "email" ++ " = :" ++ "email") ∈
      updateSetParts mdUsers.columns "id" :=
  (c5_update_set_clause "users" mdUsers.columns "id").1
    { name := "email", type := "TEXT" } (by decide) (by decide)

/-- C8: per-table endpoint generation is deterministic in the table metadata
and generator configuration: two runs on equal inputs produce
descriptor-for-descriptor equal output (every positional descriptor, with
all of its fields, is equal).  The embedded generation is a pure function of
its inputs, mirroring the source, which reads no state besides them. -/
theorem c8_generation_deterministic (config config' : APIGeneratorConfig)
    (enhance : TableMetadata → TableMetadata) (tableName : String)
    (metadata metadata' : TableMetadata)
    (hc : config = config') (hm : metadata = metadata') :
    (generateEndpointsForTableCfg config enhance tableName metadata).length =
      (generateEndpointsForTableCfg config' enhance tableName metadata').length ∧
    ∀ i : Nat,
      (generateEndpointsForTableCfg config enhance tableName metadata)[i]? =
        (generateEndpointsForTableCfg config' enhance tableName metadata')[i]? := by
  subst hc
  subst hm
  exact ⟨rfl, fun i => rfl⟩

/-- Witness for C8 at the users table and the default configuration. -/
theorem c8_witness :
    (generateEndpointsForTableCfg {} (fun md => md) "users" mdUsers).length =
      (generateEndpointsForTableCfg {} (fun md => md) "users" mdUsers).length ∧
    ∀ i : Nat,
      (generateEndpointsForTableCfg {} (fun md => md) "users" mdUsers)[i]? =
        (generateEndpointsForTableCfg {} (fun md => md) "users" mdUsers)[i]? :=
  c8_generation_deterministic {} {} (fun md => md) "users" mdUsers mdUsers rfl rfl

/-- C9: the default EnhanceMetadataWithLLM always succeeds (returns nil) and
changes only the VerboseDescription field: name, description, columns, sample
data and row count are unchanged, and the verbose description is the
deterministic template built from the table name, column count, row count and
each column's name, type and primary-key annotation. -/
theorem c9_enhance_frame (metadata : TableMetadata) :
    ∃ md', enhanceMetadataWithLLM metadata = .ok md' ∧
      md'.name = metadata.name ∧
      md'.description = metadata.description ∧
      md'.columns = metadata.columns ∧
      md'.sampleData = metadata.sampleData ∧
      md'.rowCount = metadata.rowCount ∧
      md'.verboseDescription =
        "Table " ++ metadata.name ++ " contains " ++
          toString metadata.columns.length ++ " columns and " ++
          toString metadata.rowCount ++ " rows. " ++ "Columns include: " ++
          String.intercalate ", "
            (metadata.columns.map (fun col =>
              col.name ++ " (" ++ col.type ++ ")" ++
                (if col.primaryKey then " [Primary Key]" else ""))) :=
  ⟨_, rfl, rfl, rfl, rfl, rfl, rfl, rfl⟩

/-- C10: each introspection or query operation invoked while the internal
database handle is nil returns the not-connected error, for every possible
backend behaviour (so no backend operation can influence the result): this
covers ListTables, GetTableMetadata, ExecuteQuery and GenerateAPIEndpoints. -/
theorem c10_not_connected_guard
    (ltBackend : Except String (List Table))
    (gmBackend : String → Except String TableMetadata)
    (eqBackend : String → List (String × String) →
      Except String (List (List (String × String))))
    (getMetadata : String → Except String TableMetadata)
    (tableName query database schema : String)
    (params : List (String × String)) (tables : List String) :
    snowflakeListTables none ltBackend = .error "not connected to database" ∧
    snowflakeGetTableMetadata none gmBackend tableName =
      .error "not connected to database" ∧
    snowflakeExecuteQuery none eqBackend query params =
      .error "not connected to database" ∧
    snowflakeGenerateAPIEndpoints none database schema getMetadata tables =
      .error "not connected to database" :=
  ⟨rfl, rfl, rfl, rfl⟩

/-- C1 as stated is false: it quantifies over endpoint generation including
the Snowflake connector's GenerateAPIEndpoints, which for a table with a
primary-key column produces only the two descriptors list and get-by-id
(hence not the five claimed ones).  Concretely, at the users metadata it
produces two descriptors, not five. -/
theorem c1_counterexample :
    (∃ col ∈ mdUsers.columns, col.primaryKey = true) ∧
    (snowflakeEndpointsForTable "DB" "PUBLIC" "users" mdUsers).map
        (fun e => (e.method, e.path)) =
      [("GET", "/users"), ("GET", "/users/\x7bid\x7d")] ∧
    (snowflakeEndpointsForTable "DB" "PUBLIC" "users" mdUsers).length ≠ 5 := by
  decide

/-- C1 amended: for the API generator's per-table generation, a table whose
inferred primary-key column name is non-empty yields exactly the descriptors
list (GET), get-by-id (GET), delete (DELETE), create (POST) and update (PUT)
in that order, and a table without one yields exactly list and create; the
Snowflake connector's own GenerateAPIEndpoints instead yields exactly list
and get-by-id with a primary key and exactly list without one. -/
theorem c1_generated_endpoint_sets (tableName database schema : String)
    (metadata : TableMetadata) :
    (findPrimaryKeyColumn metadata.columns ≠ "" →
       (generateEndpointsForTable tableName metadata).map
           (fun e => (e.method, e.path)) =
         [("GET", "/" ++ tableName),
          ("GET", "/" ++ tableName ++ "/:" ++ findPrimaryKeyColumn metadata.columns),
          ("DELETE", "/" ++ tableName ++ "/:" ++ findPrimaryKeyColumn metadata.columns),
          ("POST", "/" ++ tableName),
          ("PUT", "/" ++ tableName ++ "/:" ++ findPrimaryKeyColumn metadata.columns)]) ∧
    (findPrimaryKeyColumn metadata.columns = "" →
       (generateEndpointsForTable tableName metadata).map
           (fun e => (e.method, e.path)) =
         [("GET", "/" ++ tableName), ("POST", "/" ++ tableName)]) ∧
    (findPrimaryKeyColumn metadata.columns ≠ "" →
       (snowflakeEndpointsForTable database schema tableName metadata).map
           (fun e => (e.method, e.path)) =
         [("GET", "/" ++ tableName),
          ("GET", "/" ++ tableName ++ "/\x7b" ++
            findPrimaryKeyColumn metadata.columns ++ "\x7d")]) ∧
    (findPrimaryKeyColumn metadata.columns = "" →
       (snowflakeEndpointsForTable database schema tableName metadata).map
           (fun e => (e.method, e.path)) =
         [("GET", "/" ++ tableName)]) := by
  refine ⟨fun h => ?_, fun h => ?_, fun h => ?_, fun h => ?_⟩
  · have hb : (findPrimaryKeyColumn metadata.columns != "") = true := by
      simpa using h
    simp [generateEndpointsForTable, hb]
  · have hb : (findPrimaryKeyColumn metadata.columns != "") = false := by
      simpa using h
    simp [generateEndpointsForTable, hb]
  · have hb : (findPrimaryKeyColumn metadata.columns != "") = true := by
      simpa using h
    simp [snowflakeEndpointsForTable, hb]
  · have hb : (findPrimaryKeyColumn metadata.columns != "") = false := by
      simpa using h
    simp [snowflakeEndpointsForTable, hb]

/-- Witness for C1 at the users table (primary key inferred) and the logs
table (no primary key). -/
theorem c1_witness :
    findPrimaryKeyColumn mdUsers.columns ≠ "" ∧
    (generateEndpointsForTable "users" mdUsers).map
        (fun e => (e.method, e.path)) =
      [("GET", "/" ++ "users"),
       ("GET", "/" ++ "users" ++ "/:" ++ findPrimaryKeyColumn mdUsers.columns),
       ("DELETE", "/" ++ "users" ++ "/:" ++ findPrimaryKeyColumn mdUsers.columns),
       ("POST", "/" ++ "users"),
       ("PUT", "/" ++ "users" ++ "/:" ++ findPrimaryKeyColumn mdUsers.columns)] ∧
    findPrimaryKeyColumn mdLogs.columns = "" ∧
    (generateEndpointsForTable "logs" mdLogs).map
        (fun e => (e.method, e.path)) =
      [("GET", "/" ++ "logs"), ("POST", "/" ++ "logs")] :=
  ⟨by decide,
   (c1_generated_endpoint_sets "users" "DB" "PUBLIC" mdUsers).1 (by decide),
   by decide,
   (c1_generated_endpoint_sets "logs" "DB" "PUBLIC" mdLogs).2.1 (by decide)⟩

/-- C2 as stated is false: the Snowflake connector's GenerateAPIEndpoints
(one of the claim's code sources) aborts the whole call with an error as soon
as one requested table's metadata fetch fails.  Concretely, with an oracle
failing only for table bad, generation for tables bad and good returns an
error rather than descriptors for good. -/
theorem c2_counterexample :
    gmBad "bad" = .error "boom" ∧
    gmBad "good" = .ok { name := "good" } ∧
    snowflakeGenerateAPIEndpoints (some ()) "DB" "PUBLIC" gmBad
        ["bad", "good"] =
      .error "failed to get metadata for table bad: boom" :=
  ⟨rfl, rfl, rfl⟩

/-- C2 amended: the API generator's GenerateAPIFromTables implements the
partial-failure policy — with a non-empty requested table list the call
always returns ok, and every endpoint generated for a table whose metadata
fetch succeeds is in the result; the Snowflake connector's own
GenerateAPIEndpoints is instead all-or-nothing: any requested table whose
metadata fetch fails makes the whole call return an error. -/
theorem c2_partial_failure_policy (config : APIGeneratorConfig)
    (enhance : TableMetadata → TableMetadata)
    (listTablesResult : Except String (List Table))
    (getMetadata : String → Except String TableMetadata)
    (tables : List String) (database schema : String)
    (hne : tables ≠ []) :
    (∃ eps,
       generateAPIFromTables true config enhance listTablesResult getMetadata
           tables = .ok eps ∧
       ∀ t ∈ tables, ∀ md, getMetadata t = .ok md →
         ∀ e ∈ generateEndpointsForTableCfg config enhance t md, e ∈ eps) ∧
    (∀ t ∈ tables, ∀ msg, getMetadata t = .error msg →
       ∃ e, snowflakeGenLoop database schema getMetadata tables = .error e) := by
  constructor
  · refine ⟨if config.includeMetadata then
        generateTablesLoop config enhance getMetadata tables ++
          generateMetadataEndpoints
      else generateTablesLoop config enhance getMetadata tables, ?_, ?_⟩
    · cases tables with
      | nil => exact absurd rfl hne
      | cons t ts => simp [generateAPIFromTables]
    · intro t ht md hmd e he
      have hloop :=
        generateTablesLoop_mem config enhance getMetadata tables t md e ht hmd he
      by_cases him : config.includeMetadata
      · simpa [him] using List.mem_append_left generateMetadataEndpoints hloop
      · simpa [him] using hloop
  · intro t ht msg hmsg
    exact snowflakeGenLoop_error database schema getMetadata tables t msg ht hmsg

/-- Witness for C2 at tables bad and good with the oracle failing on bad. -/
theorem c2_witness :
    (∃ eps,
       generateAPIFromTables true {} (fun md => md) (.ok []) gmBad
           ["bad", "good"] = .ok eps ∧
       ∀ t ∈ ["bad", "good"], ∀ md, gmBad t = .ok md →
         ∀ e ∈ generateEndpointsForTableCfg {} (fun md => md) t md, e ∈ eps) ∧
    (∀ t ∈ ["bad", "good"], ∀ msg, gmBad t = .error msg →
       ∃ e, snowflakeGenLoop "DB" "PUBLIC" gmBad ["bad", "good"] = .error e) :=
  c2_partial_failure_policy {} (fun md => md) (.ok []) gmBad
    ["bad", "good"] "DB" "PUBLIC" (by decide)

/-- C3 as stated is false: the handler's query-string pass runs after the
path pass and writes unconditionally, so a query-string parameter replaces a
path-bound value of the same name.  Concretely, with descriptor parameter id,
path binding id to 5 and query string id=9, the extracted map holds 9. -/
theorem c3_counterexample :
    mapGet [("id", "5")] "id" = some "5" ∧
    "id" ∈ ["id"] ∧
    mapGet (extractParams ["id"] [("id", "5")] [("id", ["9"])]) "id" =
      some "9" ∧
    mapGet (extractParams ["id"] [("id", "5")] [("id", ["9"])]) "id" ≠
      some "5" := by
  decide

/-- C3 amended: path parameters are bound first and query-string parameters
are then merged in with plain map assignment, so a query-string parameter of
a given name (with a non-empty value list, under distinct query keys)
replaces any path-bound value of that name with its first value; a path-bound
value survives exactly for declared names absent from the query string. -/
theorem c3_param_merge (names : List String)
    (pathParams : List (String × String))
    (queryParams : List (String × List String)) (k v w : String)
    (vs : List String) :
    ((k, v :: vs) ∈ queryParams → (queryParams.map Prod.fst).Nodup →
       mapGet (extractParams names pathParams queryParams) k = some v) ∧
    (k ∉ queryParams.map Prod.fst → k ∈ names → mapGet pathParams k = some w →
       mapGet (extractParams names pathParams queryParams) k = some w) := by
  constructor
  · intro hmem hnd
    exact mergeQueryParams_mem queryParams _ k v vs hmem hnd
  · intro hq hn hp
    rw [extractParams, mergeQueryParams_not_mem queryParams _ k hq]
    exact bindPathParams_mem pathParams names [] k w hn hp

/-- Witness for C3: the query key limit overrides, the path-only key id
survives with its path-bound value. -/
theorem c3_witness :
    mapGet (extractParams ["id"] [("id", "5")] [("limit", ["10"])]) "limit" =
      some "10" ∧
    mapGet (extractParams ["id"] [("id", "5")] [("limit", ["10"])]) "id" =
      some "5" :=
  ⟨(c3_param_merge ["id"] [("id", "5")] [("limit", ["10"])] "limit" "10" "5"
      []).1 (by decide) (by decide),
   (c3_param_merge ["id"] [("id", "5")] [("limit", ["10"])] "id" "10" "5"
      []).2 (by decide) (by decide) (by decide)⟩

/-- C6 as stated is false in its conclusion: two consecutive Start calls can
perform two Connect invocations when the first Connect fails (the server then
stays Stopped and the second Start connects again).  Concretely, with a
connector whose Connect always fails, two Starts from the initial state
perform two Connect invocations. -/
theorem c6_counterexample :
    (serverStart (fun _ => false) ({ hasDB := true } : MCPServer)).2 ≠ none ∧
    ¬((serverStart (fun _ => false)
        (serverStart (fun _ => false) ({ hasDB := true } : MCPServer)).1).1.connectCalls ≤
      ({ hasDB := true } : MCPServer).connectCalls + 1) := by
  decide

/-- C6 amended: Start while Running returns nil without invoking Connect, and
Stop while Stopped returns nil without invoking Disconnect; two consecutive
Start calls perform at most one Connect provided the first Start returns nil
(after a failed first Connect the server stays Stopped and the second Start
invokes Connect again), and two consecutive Stop calls always perform at most
one Disconnect. -/
theorem c6_lifecycle_idempotence (connectOk : Nat → Bool) (s : MCPServer) :
    (s.isRunning = true → serverStart connectOk s = (s, none)) ∧
    (s.isRunning = false → serverStop s = (s, none)) ∧
    ((serverStart connectOk s).2 = none →
       serverStart connectOk (serverStart connectOk s).1 =
         ((serverStart connectOk s).1, none) ∧
       (serverStart connectOk s).1.connectCalls ≤ s.connectCalls + 1) ∧
    (serverStop (serverStop s).1).1.disconnectCalls ≤ s.disconnectCalls + 1 := by
  refine ⟨fun h => by simp [serverStart, h], fun h => by simp [serverStop, h],
    fun h => ?_, ?_⟩
  · by_cases hr : s.isRunning
    · simp [serverStart, hr]
    · by_cases hdb : s.hasDB
      · by_cases hc : connectOk s.connectCalls
        · simp [serverStart, hr, hdb, hc]
        · simp [serverStart, hr, hdb, hc] at h
      · simp [serverStart, hr, hdb]
  · by_cases hr : s.isRunning
    · by_cases hdb : s.hasDB
      · simp [serverStop, hr, hdb]
      · simp [serverStop, hr, hdb]
    · simp [serverStop, hr]

/-- Witness for C6 at a running server with database, with succeeding
Connect. -/
theorem c6_witness :
    serverStart (fun _ => true)
        ({ hasDB := true, isRunning := true } : MCPServer) =
      (({ hasDB := true, isRunning := true } : MCPServer), none) ∧
    (serverStop (serverStop
        ({ hasDB := true, isRunning := true } : MCPServer)).1).1.disconnectCalls ≤
      ({ hasDB := true, isRunning := true } : MCPServer).disconnectCalls + 1 :=
  ⟨(c6_lifecycle_idempotence (fun _ => true)
      { hasDB := true, isRunning := true }).1 rfl,
   (c6_lifecycle_idempotence (fun _ => true)
      { hasDB := true, isRunning := true }).2.2.2⟩

/-- C7 as stated is false in its second half: the authentication switch runs
on the lowercased AuthType, so the value PASSWORD — outside the literal set
of password and key_pair — does not fail with a configuration error; with
benign externals Connect succeeds and a connection attempt is made. -/
theorem c7_counterexample :
    ("PASSWORD" ∉ (["password", "key_pair"] : List String)) ∧
    snowflakeConnect extOk cfgUpper = (.ok (), true) :=
  ⟨by decide, rfl⟩

/-- C7 amended: a configuration whose lowercased AuthType is key_pair with
both the inline private key and the key path empty makes Connect fail with
the configuration error from DSN construction, before any connection
attempt; and a configuration whose lowercased AuthType is outside password
and key_pair makes Connect fail with the unsupported-authentication-type
configuration error, before any connection attempt — each for every possible
behaviour of the external collaborators. -/
theorem c7_auth_switch (ext : ConnectExternals) (cfg : SnowflakeConfig) :
    (strToLower cfg.authType = "key_pair" → cfg.privateKey = "" →
       cfg.privateKeyPath = "" →
       snowflakeConnect ext cfg =
         (.error ("failed to create Snowflake DSN: " ++
           "either private_key or private_key_path must be provided for key_pair authentication"),
          false)) ∧
    (strToLower cfg.authType ≠ "password" → strToLower cfg.authType ≠ "key_pair" →
       snowflakeConnect ext cfg =
         (.error ("failed to create Snowflake DSN: " ++
           ("unsupported authentication type: " ++ cfg.authType)), false)) := by
  constructor
  · intro h1 h2 h3
    have hd : createSnowflakeDSN ext.toDSNExternals cfg =
        .error "either private_key or private_key_path must be provided for key_pair authentication" := by
      rw [createSnowflakeDSN]
      simp [h1, h2, h3]
    rw [snowflakeConnect, hd]
  · intro h1 h2
    have hd : createSnowflakeDSN ext.toDSNExternals cfg =
        .error ("unsupported authentication type: " ++ cfg.authType) := by
      rw [createSnowflakeDSN]
      simp [h1, h2]
    rw [snowflakeConnect, hd]

/-- Witness for C7 at the empty key_pair configuration and an unsupported
basic auth type, with benign externals. -/
theorem c7_witness :
    snowflakeConnect extOk cfgKeyPairEmpty =
      (.error ("failed to create Snowflake DSN: " ++
        "either private_key or private_key_path must be provided for key_pair authentication"),
       false) ∧
    snowflakeConnect extOk { authType := "basic" } =
      (.error ("failed to create Snowflake DSN: " ++
        ("unsupported authentication type: " ++ "basic")), false) :=
  ⟨(c7_auth_switch extOk cfgKeyPairEmpty).1 (by decide) rfl rfl,
   (c7_auth_switch extOk { authType := "basic" }).2 (by decide) (by decide)⟩

end MCPGateway
